import Mathlib

/-!
Verification of the Tail-f/NSO NETCONF RPC builders
(`ncclient/operations/third_party/tailf/rpc.py`).

The builders construct XML request documents by mutating an lxml element
tree.  We embed the element tree as an inductive type and translate each
builder as a function that either returns the finished request node or an
error paired with the node as it stood at the moment the exception was
raised (Python exceptions propagate while the mutated node keeps the
children already appended, which several claims are about).
-/

set_option autoImplicit false

namespace Tailf

/-- An XML element: namespace URI, local tag name, optional text, and the
list of child elements in document order.  Mirrors the lxml `_Element`
objects the builders construct (`tag` = `{ns}name` split into the two
components; an unqualified tag has `ns = ""`). -/
inductive Elem : Type where
  | mk (ns : String) (tag : String) (text : Option String) (children : List Elem)

def Elem.ns : Elem → String
  | .mk n _ _ _ => n

def Elem.tag : Elem → String
  | .mk _ t _ _ => t

def Elem.text : Elem → Option String
  | .mk _ _ tx _ => tx

def Elem.children : Elem → List Elem
  | .mk _ _ _ cs => cs

/-- `etree.SubElement` / `node.append`: append one child at the end. -/
def Elem.appendChild : Elem → Elem → Elem
  | .mk n t tx cs, c => .mk n t tx (cs ++ [c])

/-- Does the node have a direct child with the given local tag name? -/
def Elem.hasChildTag (e : Elem) (t : String) : Bool :=
  e.children.any fun c => c.tag = t

/-- The NETCONF base namespace, hard-coded in `EditConfig.request`
(`ns = "{urn:ietf:params:xml:ns:netconf:base:1.0}"`). -/
def BASE_NS_1_0 : String := "urn:ietf:params:xml:ns:netconf:base:1.0"

/-- Modelled from the spec: the vendor namespace URIs from `ncclient.xml_`
(not under `src/`); the spec treats them as symbolic, so we keep symbolic
distinct strings. -/
def TAILF_NS : String := "tailf:ns"

def TAILF_NS_NCS : String := "tailf:ns:ncs"

def TAILF_NS_WTI : String := "tailf:ns:wti"

def TAILF_NS_INACTIVE : String := "tailf:ns:inactive"

def TAILF_NS_ROLLBACK : String := "tailf:ns:rollback"

/-- Modelled from the spec: the markup builder's `new_ele_ns(tag, ns)` —
create a fresh namespace-qualified element. -/
def new_ele_ns (tag ns : String) : Elem := .mk ns tag none []

/-- Modelled from the spec: the markup builder's `new_ele(tag)` — a fresh
element qualified in the protocol base namespace. -/
def new_ele (tag : String) : Elem := new_ele_ns tag BASE_NS_1_0

/-- The typed errors the builders raise: `OperationError` (the spec's
`InvalidArgument`), the missing-capability error raised by the session's
`_assert` (the spec's `UnsupportedCapability`), and the markup library's
root-validation error (the spec's `MalformedPayload`). -/
inductive RpcError : Type where
  | operationError (msg : String)
  | missingCapability (cap : String)
  | malformedPayload (msg : String)
deriving DecidableEq, Repr

/-- A builder step either yields the updated node or raises, leaving the
node with whatever children were appended before the raise. -/
abbrev Build := Except (RpcError × Elem) Elem

/-- Python truthiness of an optional string argument (`if x:`): present
and non-empty. -/
def truthyStr : Option String → Bool
  | none => false
  | some s => s ≠ ""

/-- `add_service_commit_params(node, no_deploy, reconcile)`: appends a
`no-deploy` marker when `no_deploy`, then validates `reconcile` and
appends `reconcile/<value>`; an out-of-set value raises after the
`no-deploy` marker was already appended. -/
def add_service_commit_params (node : Elem) (no_deploy : Bool)
    (reconcile : Option String) : Build :=
  let node1 := if no_deploy then
    node.appendChild (.mk TAILF_NS_NCS "no-deploy" none []) else node
  match reconcile with
  | none => .ok node1
  | some r =>
    if r = "keep-non-service-config" ∨ r = "discard-non-service-config" then
      .ok (node1.appendChild
        (.mk TAILF_NS_NCS "reconcile" none [.mk TAILF_NS_NCS r none []]))
    else
      .error (.operationError ("Wrong reconcile argument: " ++ r), node1)

/-- `add_rollback_meta_data(node, rollback_label, rollback_comment)`:
appends `label` and/or `comment` elements when the strings are truthy. -/
def add_rollback_meta_data (node : Elem) (rollback_label rollback_comment : Option String) : Elem :=
  let node1 := match rollback_label with
    | some l => if l ≠ "" then
        node.appendChild (.mk TAILF_NS_ROLLBACK "label" (some l) []) else node
    | none => node
  match rollback_comment with
  | some c => if c ≠ "" then
      node1.appendChild (.mk TAILF_NS_ROLLBACK "comment" (some c) []) else node1
  | none => node1

/-- `add_with_transaction_id(node, with_transaction_id)`. -/
def add_with_transaction_id (node : Elem) (with_transaction_id : Bool) : Elem :=
  if with_transaction_id then
    node.appendChild (.mk TAILF_NS_WTI "with-transaction-id" none [])
  else node

/-- `add_with_inactive(node, with_inactive)`; the Python default for the
parameter is `True`. -/
def add_with_inactive (node : Elem) (with_inactive : Bool) : Elem :=
  if with_inactive then
    node.appendChild (.mk TAILF_NS_INACTIVE "with-inactive" none [])
  else node

/-- Modelled from the spec: the session's capability assertion `self._assert`
(`RPC._assert` is not under `src/`) — raises the spec's
`UnsupportedCapability` when the session has not advertised `cap`. -/
def RPC_assert (caps : List String) (cap : String) : Except RpcError Unit :=
  if cap ∈ caps then .ok () else .error (.missingCapability cap)

/-- A `source`/`target` argument as the Python builders receive it: either a
string (datastore name or URL) or an element tree. -/
inductive SourceArg : Type where
  | str (s : String)
  | tree (e : Elem)

/-- Substring containment, for the URL-scheme test of `datastore_or_url`. -/
def containsSub (s pat : String) : Bool := decide (pat.toList <:+: s.toList)

/-- Modelled from the spec: `util.datastore_or_url(wha, loc, self._assert)`
(not under `src/`) — interprets a string argument as a named datastore or,
when it contains a URL scheme separator, as a URL (URLs are gated on the
`:url` capability); a non-string argument makes the interpretation attempt
raise, which `CopyConfig` silently swallows. -/
def datastore_or_url (wha : String) (loc : SourceArg) (caps : List String) :
    Except RpcError Elem :=
  match loc with
  | .str s =>
    if containsSub s "://" then
      match RPC_assert caps ":url" with
      | .error e => .error e
      | .ok _ => .ok (.mk BASE_NS_1_0 wha none [.mk BASE_NS_1_0 "url" (some s) []])
    else
      .ok (.mk BASE_NS_1_0 wha none [.mk BASE_NS_1_0 s none []])
  | .tree _ => .error (.operationError "datastore_or_url expects a string")

/-- Modelled from the spec: the markup library's
`validated_element(x, tags)` (not under `src/`) — checks that the root's
qualified name is one of the allowed `(namespace, tag)` pairs and raises
the spec's `MalformedPayload` otherwise. -/
def validated_element (e : Elem) (tags : List (String × String)) :
    Except RpcError Elem :=
  if tags.any (fun t => t.1 = e.ns && t.2 = e.tag) then .ok e
  else .error (.malformedPayload ("Element [" ++ e.tag ++ "] does not meet requirement"))

/-- Modelled from the spec: a string source reaching the inline-element
fallback of `CopyConfig` is a malformed payload (the spec's config payload
for the fallback is a structured tree rooted at `source`). -/
def validated_element_src (source : SourceArg) (tags : List (String × String)) :
    Except RpcError Elem :=
  match source with
  | .tree e => validated_element e tags
  | .str _ => .error (.malformedPayload "inline source must be an element")

/-- A config payload as `EditConfig` receives it: a structured tree (xml
format) or an opaque text blob (text format). -/
inductive ConfigArg : Type where
  | tree (e : Elem)
  | text (s : String)

/-- `config_node.tag = "{urn:ietf:params:xml:ns:netconf:base:1.0}config"`:
the re-tagging of the validated payload root in `EditConfig.request`. -/
def retag_base_config : Elem → Elem
  | .mk _ _ tx cs => .mk BASE_NS_1_0 "config" tx cs

/-- `StartTransaction.request(target, with_inactive=True)`: builds
`start-transaction` with a `target/<name>` subtree, then applies
`add_with_inactive`.  The Python default for `with_inactive` is `True`. -/
def StartTransaction_request (target : String) (with_inactive : Bool) : Elem :=
  let node := new_ele_ns "start-transaction" TAILF_NS
  let node := node.appendChild (.mk TAILF_NS "target" none [.mk TAILF_NS target none []])
  add_with_inactive node with_inactive

/-- `PrepareTransaction.request(dry_run, dry_run_reverse, no_deploy,
reconcile, rollback_label, rollback_comment)` (all defaulting to
`None`/`False`): validates `dry_run` against `{native, cli, xml}`, appends
the `dry-run` subtree, then the service-commit params and rollback
metadata. -/
def PrepareTransaction_request (dry_run : Option String)
    (dry_run_reverse no_deploy : Bool)
    (reconcile rollback_label rollback_comment : Option String) : Build :=
  let node := new_ele_ns "prepare-transaction" TAILF_NS
  let step : Build := match dry_run with
    | none => .ok node
    | some d =>
      if d = "native" ∨ d = "cli" ∨ d = "xml" then
        .ok (node.appendChild (.mk TAILF_NS_NCS "dry-run" none
          (.mk TAILF_NS_NCS "outformat" (some d) [] ::
            (if dry_run_reverse then [Elem.mk TAILF_NS_NCS "reverse" none []] else []))))
      else .error (.operationError ("Wrong dry-run argument: " ++ d), node)
  match step with
  | .error e => .error e
  | .ok node1 =>
    match add_service_commit_params node1 no_deploy reconcile with
    | .error e => .error e
    | .ok node2 => .ok (add_rollback_meta_data node2 rollback_label rollback_comment)

/-- `CommitTransaction.request(with_transaction_id=None)`. -/
def CommitTransaction_request (with_transaction_id : Bool) : Elem :=
  add_with_transaction_id (new_ele_ns "commit-transaction" TAILF_NS) with_transaction_id

/-- `AbortTransaction.request()`. -/
def AbortTransaction_request : Elem := new_ele_ns "abort-transaction" TAILF_NS

/-- `EditConfig.request(config, format='xml', target='candidate',
default_operation=None, test_option=None, error_option=None,
no_deploy=False, reconcile=None, rollback_label=None,
rollback_comment=None, with_transaction_id=False, with_inactive=False)`.
`caps` is the set of capabilities the session advertised (consulted by
`self._assert`). -/
def EditConfig_request (caps : List String) (config : ConfigArg)
    (format target : String)
    (default_operation test_option error_option : Option String)
    (no_deploy : Bool) (reconcile rollback_label rollback_comment : Option String)
    (with_transaction_id with_inactive : Bool) : Build :=
  let node := new_ele "edit-config"
  match datastore_or_url "target" (.str target) caps with
  | .error e => .error (e, node)
  | .ok tgt =>
  let node := node.appendChild tgt
  let node := match default_operation with
    | some d => node.appendChild (.mk BASE_NS_1_0 "default-operation" (some d) [])
    | none => node
  match (match test_option with
         | some _ => RPC_assert caps ":validate"
         | none => .ok ()) with
  | .error e => .error (e, node)
  | .ok _ =>
  let node := match test_option with
    | some t => node.appendChild (.mk BASE_NS_1_0 "test-option" (some t) [])
    | none => node
  match (match error_option with
         | some eo => if eo = "rollback-on-error" then RPC_assert caps ":rollback-on-error" else .ok ()
         | none => .ok ()) with
  | .error e => .error (e, node)
  | .ok _ =>
  let node := match error_option with
    | some eo => node.appendChild (.mk BASE_NS_1_0 "error-option" (some eo) [])
    | none => node
  match add_service_commit_params node no_deploy reconcile with
  | .error e => .error e
  | .ok node =>
  let node := add_rollback_meta_data node rollback_label rollback_comment
  let node := add_with_transaction_id node with_transaction_id
  let node := add_with_inactive node with_inactive
  if format = "xml" then
    match config with
    | .tree e =>
      match validated_element e [("", "config"), (BASE_NS_1_0, "config")] with
      | .error err => .error (err, node)
      | .ok ce => .ok (node.appendChild (retag_base_config ce))
    | .text _ => .error (.malformedPayload "xml format expects a structured payload", node)
  else if format = "text" then
    match config with
    | .text s => .ok (node.appendChild
        (.mk BASE_NS_1_0 "config-text" none [.mk BASE_NS_1_0 "configuration-text" (some s) []]))
    | .tree _ => .error (.malformedPayload "text format expects a string payload", node)
  else
    .ok node

/-- `CopyConfig.request(source, target, no_deploy=False, reconcile=None,
with_transaction_id=False, with_inactive=False)`: the `target` is
interpreted as a datastore/URL; the `source` interpretation is attempted
as datastore/URL first and, on any exception, falls back to validating the
source as an inline `source` element. -/
def CopyConfig_request (caps : List String) (source : SourceArg) (target : String)
    (no_deploy : Bool) (reconcile : Option String)
    (with_transaction_id with_inactive : Bool) : Build :=
  let node := new_ele "copy-config"
  match datastore_or_url "target" (.str target) caps with
  | .error e => .error (e, node)
  | .ok tgt =>
  let node := node.appendChild tgt
  match (match datastore_or_url "source" source caps with
         | .ok s => Except.ok (node.appendChild s)
         | .error _ =>
           match validated_element_src source [("", "source"), (BASE_NS_1_0, "source")] with
           | .ok s => Except.ok (node.appendChild s)
           | .error e => Except.error (e, node) : Build) with
  | .error e => .error e
  | .ok node =>
  match add_service_commit_params node no_deploy reconcile with
  | .error e => .error e
  | .ok node =>
  let node := add_with_transaction_id node with_transaction_id
  .ok (add_with_inactive node with_inactive)

/-- `Commit.request(confirmed=False, timeout=None, persist=None,
persist_id=None, no_deploy=False, reconcile=None, rollback_label=None,
rollback_comment=None, with_transaction_id=False)`: checks the
persist-id mutual exclusion, then builds the confirmed-commit block (the
`:confirmed-commit` capability is asserted only when `confirmed`), the
`persist-id` element, and the NSO extension params. -/
def Commit_request (caps : List String) (confirmed : Bool)
    (timeout persist persist_id : Option String) (no_deploy : Bool)
    (reconcile rollback_label rollback_comment : Option String)
    (with_transaction_id : Bool) : Build :=
  let node := new_ele "commit"
  if (confirmed || truthyStr persist) && truthyStr persist_id then
    .error (.operationError "Invalid operation as confirmed or persist cannot be present with persist-id", node)
  else
  match (if confirmed then RPC_assert caps ":confirmed-commit" else .ok ()) with
  | .error e => .error (e, node)
  | .ok _ =>
  let node := if confirmed then
      let n := node.appendChild (.mk BASE_NS_1_0 "confirmed" none [])
      let n := match timeout with
        | some t => n.appendChild (.mk BASE_NS_1_0 "confirm-timeout" (some t) [])
        | none => n
      match persist with
      | some p => n.appendChild (.mk BASE_NS_1_0 "persist" (some p) [])
      | none => n
    else node
  let node := match persist_id with
    | some pid => if pid ≠ "" then
        node.appendChild (.mk BASE_NS_1_0 "persist-id" (some pid) []) else node
    | none => node
  match add_service_commit_params node no_deploy reconcile with
  | .error e => .error e
  | .ok node =>
  let node := add_rollback_meta_data node rollback_label rollback_comment
  .ok (add_with_transaction_id node with_transaction_id)

/-! Observation helpers and the explicit child lists the encoders append,
used to state and prove the claims. -/

/-- Observation: on success, whether the built request has a direct child
with the given tag; `none` when the builder raised. -/
def buildOkHasChildTag (b : Build) (t : String) : Option Bool :=
  match b with
  | .ok n => some (n.hasChildTag t)
  | .error _ => none

/-- Observation: how many children the in-progress node held at the moment
the builder raised; `none` when the build succeeded. -/
def buildErrChildCount : Build → Option Nat
  | .error (_, n) => some n.children.length
  | .ok _ => none

/-- Observation: the capability named by a missing-capability error,
`none` for success or any other error. -/
def buildErrCap : Build → Option String
  | .error (.missingCapability c, _) => some c
  | _ => none

/-- The message of the `Commit` mutual-exclusion `OperationError`. -/
def commitMutexMsg : String :=
  "Invalid operation as confirmed or persist cannot be present with persist-id"

/-- The `target` subtree `datastore_or_url` builds for a plain datastore
name. -/
def targetFor (name : String) : Elem :=
  .mk BASE_NS_1_0 "target" none [.mk BASE_NS_1_0 name none []]

/-- The children `add_service_commit_params` appends when it succeeds. -/
def scpChildren (nd : Bool) (rc : Option String) : List Elem :=
  (if nd then [Elem.mk TAILF_NS_NCS "no-deploy" none []] else []) ++
  (match rc with
   | some r => [Elem.mk TAILF_NS_NCS "reconcile" none [.mk TAILF_NS_NCS r none []]]
   | none => [])

/-- The children `add_rollback_meta_data` appends. -/
def rbChildren (l cm : Option String) : List Elem :=
  (match l with
   | some l0 => if l0 ≠ "" then [Elem.mk TAILF_NS_ROLLBACK "label" (some l0) []] else []
   | none => []) ++
  (match cm with
   | some c0 => if c0 ≠ "" then [Elem.mk TAILF_NS_ROLLBACK "comment" (some c0) []] else []
   | none => [])

/-- The children `add_with_transaction_id` appends. -/
def wtiChildren (b : Bool) : List Elem :=
  if b then [Elem.mk TAILF_NS_WTI "with-transaction-id" none []] else []

/-- The children the confirmed-commit block of `Commit.request` appends. -/
def confirmedChildren (c : Bool) (t p : Option String) : List Elem :=
  if c then
    [Elem.mk BASE_NS_1_0 "confirmed" none []] ++
    (match t with
     | some t0 => [Elem.mk BASE_NS_1_0 "confirm-timeout" (some t0) []]
     | none => []) ++
    (match p with
     | some p0 => [Elem.mk BASE_NS_1_0 "persist" (some p0) []]
     | none => [])
  else []

/-- The children the `persist-id` block of `Commit.request` appends. -/
def pidChildren (pid : Option String) : List Elem :=
  match pid with
  | some s => if s ≠ "" then [Elem.mk BASE_NS_1_0 "persist-id" (some s) []] else []
  | none => []

end Tailf

namespace Tailf

/-! Shape lemmas for the option encoders. -/

theorem hasChildTag_mk (n t : String) (tx : Option String) (cs : List Elem)
    (tag0 : String) :
    (Elem.mk n t tx cs).hasChildTag tag0 = cs.any fun c => c.tag = tag0 := rfl

theorem hasChildTag_appendChild (e c : Elem) (t : String) :
    (e.appendChild c).hasChildTag t = (e.hasChildTag t || c.tag = t) := by
  cases e
  simp [Elem.appendChild, Elem.hasChildTag, Elem.children]

theorem add_service_commit_params_ok (n : Elem) (nd : Bool) (rc : Option String)
    (h : rc = none ∨ rc = some "keep-non-service-config" ∨
      rc = some "discard-non-service-config") :
    add_service_commit_params n nd rc =
      .ok (.mk n.ns n.tag n.text (n.children ++ scpChildren nd rc)) := by
  rcases h with h | h | h <;> subst h <;> cases n <;> cases nd <;>
    simp [add_service_commit_params, scpChildren, Elem.appendChild,
      Elem.ns, Elem.tag, Elem.text, Elem.children]

theorem add_rollback_meta_data_eq (n : Elem) (l cm : Option String) :
    add_rollback_meta_data n l cm = .mk n.ns n.tag n.text (n.children ++ rbChildren l cm) := by
  cases n <;> rcases l with _ | l0 <;> rcases cm with _ | c0 <;>
    simp [add_rollback_meta_data, rbChildren, Elem.appendChild,
      Elem.ns, Elem.tag, Elem.text, Elem.children] <;>
    split_ifs <;>
    simp [Elem.appendChild]

theorem add_with_transaction_id_eq (n : Elem) (b : Bool) :
    add_with_transaction_id n b = .mk n.ns n.tag n.text (n.children ++ wtiChildren b) := by
  cases n <;> cases b <;>
    simp [add_with_transaction_id, wtiChildren, Elem.appendChild,
      Elem.ns, Elem.tag, Elem.text, Elem.children]

theorem Commit_request_ok_shape (caps : List String) (c : Bool)
    (t p pid : Option String) (nd : Bool) (rc l cm : Option String) (wti : Bool)
    (hrc : rc = none ∨ rc = some "keep-non-service-config" ∨
      rc = some "discard-non-service-config")
    (hmx : ((c || truthyStr p) && truthyStr pid) = false)
    (hcap : c = true → ":confirmed-commit" ∈ caps) :
    Commit_request caps c t p pid nd rc l cm wti =
      .ok (.mk BASE_NS_1_0 "commit" none
        (confirmedChildren c t p ++ pidChildren pid ++ scpChildren nd rc ++
          rbChildren l cm ++ wtiChildren wti)) := by
  have hscp : ∀ n : Elem, add_service_commit_params n nd rc =
      .ok (.mk n.ns n.tag n.text (n.children ++ scpChildren nd rc)) :=
    fun n => add_service_commit_params_ok n nd rc hrc
  cases c with
  | false =>
    rcases pid with _ | pid0
    · simp [Commit_request, hmx, hscp, add_rollback_meta_data_eq,
        add_with_transaction_id_eq, confirmedChildren, pidChildren,
        new_ele, new_ele_ns, Elem.appendChild, truthyStr,
        Elem.ns, Elem.tag, Elem.text, Elem.children]
    · by_cases hp : pid0 = "" <;>
        simp [Commit_request, hmx, hscp, hp, add_rollback_meta_data_eq,
          add_with_transaction_id_eq, confirmedChildren, pidChildren,
          new_ele, new_ele_ns, Elem.appendChild, truthyStr,
          Elem.ns, Elem.tag, Elem.text, Elem.children] <;>
        simp_all [truthyStr]
  | true =>
    have hmem := hcap rfl
    have hpid : truthyStr pid = false := by
      cases hb : truthyStr pid
      · rfl
      · rw [hb] at hmx
        simp at hmx
    rcases pid with _ | pid0
    · rcases t with _ | t0 <;> rcases p with _ | p0 <;>
        simp [Commit_request, hmx, hscp, hmem, RPC_assert,
          add_rollback_meta_data_eq, add_with_transaction_id_eq,
          confirmedChildren, pidChildren, new_ele, new_ele_ns, Elem.appendChild,
          truthyStr, Elem.ns, Elem.tag, Elem.text, Elem.children] <;>
        simp_all [truthyStr]
    · have hp : pid0 = "" := by
        by_contra hp0
        simp [truthyStr, hp0] at hpid
      subst hp
      rcases t with _ | t0 <;> rcases p with _ | p0 <;>
        simp [Commit_request, hmx, hscp, hmem, RPC_assert,
          add_rollback_meta_data_eq, add_with_transaction_id_eq,
          confirmedChildren, pidChildren, new_ele, new_ele_ns, Elem.appendChild,
          truthyStr, Elem.ns, Elem.tag, Elem.text, Elem.children] <;>
        simp_all [truthyStr]

theorem scpChildren_no_tag (nd : Bool) (rc : Option String) (t : String)
    (h1 : t ≠ "no-deploy") (h2 : t ≠ "reconcile") :
    ((scpChildren nd rc).any fun c => c.tag = t) = false := by
  cases nd <;> rcases rc with _ | r <;>
    simp [scpChildren, Elem.tag, Ne.symm h1, Ne.symm h2]

theorem rbChildren_no_tag (l cm : Option String) (t : String)
    (h1 : t ≠ "label") (h2 : t ≠ "comment") :
    ((rbChildren l cm).any fun c => c.tag = t) = false := by
  rcases l with _ | l0 <;> rcases cm with _ | c0 <;>
    simp [rbChildren, Elem.tag, Ne.symm h1, Ne.symm h2] <;>
    split_ifs <;>
    simp [Elem.tag, Ne.symm h1, Ne.symm h2]

theorem wtiChildren_no_tag (b : Bool) (t : String)
    (h : t ≠ "with-transaction-id") :
    ((wtiChildren b).any fun c => c.tag = t) = false := by
  cases b <;> simp [wtiChildren, Elem.tag, Ne.symm h]

theorem pidChildren_no_tag (pid : Option String) (t : String)
    (h : t ≠ "persist-id") :
    ((pidChildren pid).any fun c => c.tag = t) = false := by
  rcases pid with _ | s <;>
    simp [pidChildren, Elem.tag, Ne.symm h] <;>
    split_ifs <;>
    simp [Elem.tag, Ne.symm h]

theorem any_tag_pidChildren (pid : Option String) :
    ((pidChildren pid).any fun c => c.tag = "persist-id") = truthyStr pid := by
  rcases pid with _ | s
  · rfl
  · by_cases h : s = "" <;> simp [pidChildren, truthyStr, h, Elem.tag]

/-- Claim C6: for every reconcile value in the enumerated set,
`add_service_commit_params` appends exactly one `reconcile` element whose
single child is named after that value; for `no_deploy` true it also
appends the `no-deploy` marker element; for any non-None reconcile value
outside the set it raises the typed `OperationError` (the spec's
`InvalidArgument`). -/
theorem C6_service_commit_params (node : Elem) (nd : Bool) (r : String) :
    ((r = "keep-non-service-config" ∨ r = "discard-non-service-config") →
      add_service_commit_params node nd (some r) =
        .ok (.mk node.ns node.tag node.text
          (node.children ++
            (if nd then [Elem.mk TAILF_NS_NCS "no-deploy" none []] else []) ++
            [Elem.mk TAILF_NS_NCS "reconcile" none [.mk TAILF_NS_NCS r none []]])))
    ∧ (¬(r = "keep-non-service-config" ∨ r = "discard-non-service-config") →
      add_service_commit_params node nd (some r) =
        .error (.operationError ("Wrong reconcile argument: " ++ r),
          .mk node.ns node.tag node.text
            (node.children ++
              (if nd then [Elem.mk TAILF_NS_NCS "no-deploy" none []] else [])))) := by
  constructor
  · intro h
    have h2 : (some r : Option String) = some "keep-non-service-config" ∨
        (some r : Option String) = some "discard-non-service-config" := by
      rcases h with h | h
      · exact Or.inl (by rw [h])
      · exact Or.inr (by rw [h])
    rw [add_service_commit_params_ok node nd (some r) (Or.inr h2)]
    cases nd <;> simp [scpChildren]
  · intro h
    cases node
    cases nd <;>
      simp [add_service_commit_params, if_neg h, Elem.appendChild,
        Elem.ns, Elem.tag, Elem.text, Elem.children]

/-- Witness for C6 at a concrete node and both a valid and an invalid
reconcile value. -/
theorem C6_witness :
    add_service_commit_params (new_ele_ns "prepare-transaction" TAILF_NS) true
        (some "keep-non-service-config") =
      .ok (.mk TAILF_NS "prepare-transaction" none
        [.mk TAILF_NS_NCS "no-deploy" none [],
         .mk TAILF_NS_NCS "reconcile" none
           [.mk TAILF_NS_NCS "keep-non-service-config" none []]])
    ∧ add_service_commit_params (new_ele_ns "prepare-transaction" TAILF_NS) false
        (some "bad-mode") =
      .error (.operationError "Wrong reconcile argument: bad-mode",
        new_ele_ns "prepare-transaction" TAILF_NS) := by
  constructor
  · have h := (C6_service_commit_params (new_ele_ns "prepare-transaction" TAILF_NS)
      true "keep-non-service-config").1 (Or.inl rfl)
    simpa [new_ele_ns, Elem.ns, Elem.tag, Elem.text, Elem.children] using h
  · have h := (C6_service_commit_params (new_ele_ns "prepare-transaction" TAILF_NS)
      false "bad-mode").2 (by decide)
    simpa [new_ele_ns, Elem.ns, Elem.tag, Elem.text, Elem.children] using h

/-- Claim C1 is false as stated: `PrepareTransaction` with a valid
`dry_run` and an invalid `reconcile` raises only after the dry-run subtree
and the `no-deploy` marker were appended, so the node created by the
builder holds two children at the moment the typed error is raised. -/
theorem C1_counterexample :
    PrepareTransaction_request (some "xml") false true (some "bogus") none none =
      .error (.operationError "Wrong reconcile argument: bogus",
        .mk TAILF_NS "prepare-transaction" none
          [.mk TAILF_NS_NCS "dry-run" none
             [.mk TAILF_NS_NCS "outformat" (some "xml") []],
           .mk TAILF_NS_NCS "no-deploy" none []])
    ∧ buildErrChildCount
        (PrepareTransaction_request (some "xml") false true (some "bogus") none none) =
      some 2 := by
  constructor <;> rfl

/-- Claim C1, amended: every validation failure raises a typed error and
no request is produced; an invalid dry-run format is detected before any
child is appended (the node is still empty at the raise), but an invalid
reconcile value is detected only after earlier optional elements (the
dry-run subtree, the no-deploy marker) were appended, so the node may
already hold children when the error is raised. -/
theorem C1_atomicity_amended :
    (∀ (d : String) (rev nd : Bool) (rc l cm : Option String),
      ¬(d = "native" ∨ d = "cli" ∨ d = "xml") →
      PrepareTransaction_request (some d) rev nd rc l cm =
        .error (.operationError ("Wrong dry-run argument: " ++ d),
          .mk TAILF_NS "prepare-transaction" none []))
    ∧ (∀ (rev nd : Bool) (r : String) (l cm : Option String),
      ¬(r = "keep-non-service-config" ∨ r = "discard-non-service-config") →
      ∃ n : Elem,
        PrepareTransaction_request (some "xml") rev nd (some r) l cm =
          .error (.operationError ("Wrong reconcile argument: " ++ r), n) ∧
        n.children ≠ []) := by
  constructor
  · intro d rev nd rc l cm h
    simp [PrepareTransaction_request, new_ele_ns, if_neg h]
  · intro rev nd r l cm h
    refine ⟨.mk TAILF_NS "prepare-transaction" none
        (Elem.mk TAILF_NS_NCS "dry-run" none
          (Elem.mk TAILF_NS_NCS "outformat" (some "xml") [] ::
            (if rev then [Elem.mk TAILF_NS_NCS "reverse" none []] else [])) ::
          (if nd then [Elem.mk TAILF_NS_NCS "no-deploy" none []] else [])), ?_, ?_⟩
    · cases rev <;> cases nd <;>
        simp [PrepareTransaction_request, add_service_commit_params, if_neg h,
          Elem.appendChild, new_ele_ns]
    · cases nd <;> simp [Elem.children]

/-- Witness for the amended C1 at concrete invalid arguments. -/
theorem C1_witness :
    PrepareTransaction_request (some "json") false false none none none =
      .error (.operationError "Wrong dry-run argument: json",
        .mk TAILF_NS "prepare-transaction" none [])
    ∧ ∃ n : Elem,
        PrepareTransaction_request (some "xml") false true (some "oops") none none =
          .error (.operationError "Wrong reconcile argument: oops", n) ∧
        n.children ≠ [] := by
  constructor
  · have h := C1_atomicity_amended.1 "json" false false none none none (by decide)
    simpa using h
  · have h := C1_atomicity_amended.2 false true "oops" none none (by decide)
    simpa using h

/-- Claim C5: building PrepareTransaction with `dry_run="xml"` and all
other arguments at their defaults yields a request whose only child is the
dry-run subtree with `outformat` text `"xml"`, no `reverse` marker, and no
`no-deploy`, `reconcile`, `label` or `comment` elements; a `dry_run` value
outside `{native, cli, xml}` raises the typed `OperationError` with the
node still empty. -/
theorem C5_prepare_dry_run :
    (PrepareTransaction_request (some "xml") false false none none none =
      .ok (.mk TAILF_NS "prepare-transaction" none
        [.mk TAILF_NS_NCS "dry-run" none
          [.mk TAILF_NS_NCS "outformat" (some "xml") []]]))
    ∧ (∀ d : String, ¬(d = "native" ∨ d = "cli" ∨ d = "xml") →
      PrepareTransaction_request (some d) false false none none none =
        .error (.operationError ("Wrong dry-run argument: " ++ d),
          .mk TAILF_NS "prepare-transaction" none [])) := by
  constructor
  · rfl
  · intro d h
    simp [PrepareTransaction_request, new_ele_ns, if_neg h]

/-- Witness for C5 at the concrete invalid dry-run value `"text"`. -/
theorem C5_witness :
    PrepareTransaction_request (some "text") false false none none none =
      .error (.operationError "Wrong dry-run argument: text",
        .mk TAILF_NS "prepare-transaction" none []) := by
  have h := C5_prepare_dry_run.2 "text" (by decide)
  simpa using h

/-- Claim C2 is false as stated: the Python defaults are
`with_inactive=False` for `EditConfig.request` and `CopyConfig.request`,
so building either with `withInactive` omitted produces a request without
the `with-inactive` marker. -/
theorem C2_counterexample :
    buildOkHasChildTag
        (EditConfig_request [] (.tree (.mk "" "config" none [])) "xml" "candidate"
          none none none false none none none false false) "with-inactive" =
      some false
    ∧ buildOkHasChildTag
        (CopyConfig_request [] (.str "running") "candidate" false none false false)
          "with-inactive" =
      some false := by
  constructor <;> rfl

/-- Claim C2, amended: only StartTransaction defaults `withInactive` to
included (`with_inactive=True`); EditConfig and CopyConfig declare the
parameter but default it to excluded (`with_inactive=False`).  For all
three operations the built request contains the `with-inactive` marker
exactly when the parameter is passed as true. -/
theorem C2_with_inactive_amended :
    (∀ b : Bool,
      (StartTransaction_request "candidate" b).hasChildTag "with-inactive" = b)
    ∧ (∀ b : Bool, buildOkHasChildTag
        (EditConfig_request [] (.tree (.mk "" "config" none [])) "xml" "candidate"
          none none none false none none none false b) "with-inactive" = some b)
    ∧ (∀ b : Bool, buildOkHasChildTag
        (CopyConfig_request [] (.str "running") "candidate" false none false b)
          "with-inactive" = some b) := by
  refine ⟨?_, ?_, ?_⟩ <;> intro b <;> cases b <;> rfl

/-- Witness for the amended C2: explicit `true` produces the marker on
StartTransaction and EditConfig. -/
theorem C2_witness :
    (StartTransaction_request "candidate" true).hasChildTag "with-inactive" = true
    ∧ buildOkHasChildTag
        (EditConfig_request [] (.tree (.mk "" "config" none [])) "xml" "candidate"
          none none none false none none none false true) "with-inactive" =
      some true :=
  ⟨C2_with_inactive_amended.1 true, C2_with_inactive_amended.2.1 true⟩

/-- Claim C7 is contradicted by the code: `EditConfig.request` never
validates `default_operation` (the source carries a
`TODO: check if it is a valid default-operation` comment), so an
out-of-set value is embedded verbatim in the request instead of raising
the typed error the docstring and spec require. -/
theorem C7_default_operation_not_validated :
    EditConfig_request [] (.tree (.mk "" "config" none [])) "xml" "candidate"
        (some "not-a-valid-op") none none false none none none false false =
      .ok (.mk BASE_NS_1_0 "edit-config" none
        [targetFor "candidate",
         .mk BASE_NS_1_0 "default-operation" (some "not-a-valid-op") [],
         .mk BASE_NS_1_0 "config" none []]) := by
  rfl

/-- Claim C4: with a text-format payload the built request carries the
payload text verbatim in a `configuration-text` element nested in the
`config-text` carrier; with an xml-format payload whose root parses as the
configuration root (unqualified or base-qualified `config`), the payload
is re-tagged into the protocol base namespace and appended. -/
theorem C4_edit_config_payload :
    (∀ s : String,
      EditConfig_request [] (.text s) "text" "candidate" none none none false
          none none none false false =
        .ok (.mk BASE_NS_1_0 "edit-config" none
          [targetFor "candidate",
           .mk BASE_NS_1_0 "config-text" none
             [.mk BASE_NS_1_0 "configuration-text" (some s) []]]))
    ∧ (∀ (ns0 : String) (tx : Option String) (cs : List Elem),
      (ns0 = "" ∨ ns0 = BASE_NS_1_0) →
      EditConfig_request [] (.tree (.mk ns0 "config" tx cs)) "xml" "candidate"
          none none none false none none none false false =
        .ok (.mk BASE_NS_1_0 "edit-config" none
          [targetFor "candidate", .mk BASE_NS_1_0 "config" tx cs])) := by
  constructor
  · intro s
    rfl
  · intro ns0 tx cs h
    rcases h with h | h <;> subst h <;> rfl

/-- Witness for C4 at a concrete text payload and a concrete unqualified
configuration tree. -/
theorem C4_witness :
    EditConfig_request []
        (.text "interfaces \x7b ethernet 1 \x7b enabled; \x7d \x7d") "text"
        "candidate" none none none false none none none false false =
      .ok (.mk BASE_NS_1_0 "edit-config" none
        [targetFor "candidate",
         .mk BASE_NS_1_0 "config-text" none
           [.mk BASE_NS_1_0 "configuration-text"
             (some "interfaces \x7b ethernet 1 \x7b enabled; \x7d \x7d") []]])
    ∧ EditConfig_request []
        (.tree (.mk "" "config" none [.mk "" "interfaces" none []])) "xml"
        "candidate" none none none false none none none false false =
      .ok (.mk BASE_NS_1_0 "edit-config" none
        [targetFor "candidate",
         .mk BASE_NS_1_0 "config" none [.mk "" "interfaces" none []]]) := by
  exact ⟨C4_edit_config_payload.1 "interfaces \x7b ethernet 1 \x7b enabled; \x7d \x7d",
    C4_edit_config_payload.2 "" none [.mk "" "interfaces" none []] (Or.inl rfl)⟩

/-- Claim C8: the CopyConfig builder first interprets `source` as a named
datastore or URL and appends that interpretation; only when that
interpretation raises (the exception being silently swallowed) does it
fall back to validating the source as an inline `source` element.  The
third conjunct shows the swallowing: a URL source lacking the `:url`
capability surfaces as the fallback's malformed-payload error, not as the
interpretation attempt's capability error. -/
theorem C8_copy_config_source :
    (∀ s : String, containsSub s "://" = false →
      CopyConfig_request [] (.str s) "candidate" false none false false =
        .ok (.mk BASE_NS_1_0 "copy-config" none
          [targetFor "candidate",
           .mk BASE_NS_1_0 "source" none [.mk BASE_NS_1_0 s none []]]))
    ∧ (∀ (tx : Option String) (cs : List Elem),
      CopyConfig_request [] (.tree (.mk "" "source" tx cs)) "candidate"
          false none false false =
        .ok (.mk BASE_NS_1_0 "copy-config" none
          [targetFor "candidate", .mk "" "source" tx cs]))
    ∧ (CopyConfig_request [] (.str "http://server/config") "candidate"
          false none false false =
        .error (.malformedPayload "inline source must be an element",
          .mk BASE_NS_1_0 "copy-config" none [targetFor "candidate"])) := by
  have hc : containsSub "candidate" "://" = false := rfl
  refine ⟨?_, ?_, ?_⟩
  · intro s h
    simp [CopyConfig_request, datastore_or_url, h, hc, add_service_commit_params,
      add_with_transaction_id, add_with_inactive, new_ele, new_ele_ns,
      Elem.appendChild, targetFor]
  · intro tx cs
    rfl
  · rfl

/-- Witness for C8 at the concrete datastore name `"running"`. -/
theorem confirmedChildren_no_tag (c : Bool) (t p : Option String) (tg : String)
    (h1 : tg ≠ "confirmed") (h2 : tg ≠ "confirm-timeout") (h3 : tg ≠ "persist") :
    ((confirmedChildren c t p).any fun x => x.tag = tg) = false := by
  cases c <;> rcases t with _ | t0 <;> rcases p with _ | p0 <;>
    simp [confirmedChildren, Elem.tag, Ne.symm h1, Ne.symm h2, Ne.symm h3]

/-- Claim C3: building Commit raises the mutual-exclusion
`OperationError` exactly when `persist_id` is present (truthy) together
with `confirmed` true or `persist` present; when at most one of the two
groups is present no `OperationError` is raised at all (only a
missing-capability error remains possible), and no built request ever
contains `persist-id` together with `confirmed` or `persist`. -/
theorem C3_commit_mutual_exclusion (caps : List String) (c : Bool)
    (t p pid : Option String) (nd : Bool) (rc l cm : Option String) (wti : Bool)
    (hrc : rc = none ∨ rc = some "keep-non-service-config" ∨
      rc = some "discard-non-service-config") :
    ( ((c || truthyStr p) && truthyStr pid) = true ↔
        Commit_request caps c t p pid nd rc l cm wti =
          .error (.operationError commitMutexMsg, new_ele "commit") )
    ∧ ( ((c || truthyStr p) && truthyStr pid) = false →
        ∀ (msg : String) (n : Elem),
          Commit_request caps c t p pid nd rc l cm wti ≠
            .error (.operationError msg, n) )
    ∧ ( ∀ n : Elem, Commit_request caps c t p pid nd rc l cm wti = .ok n →
        n.hasChildTag "persist-id" = true →
        n.hasChildTag "confirmed" = false ∧ n.hasChildTag "persist" = false ) := by
  by_cases hmx : ((c || truthyStr p) && truthyStr pid) = true
  · have hres : Commit_request caps c t p pid nd rc l cm wti =
        .error (.operationError commitMutexMsg, new_ele "commit") := by
      simp [Commit_request, hmx, commitMutexMsg, new_ele, new_ele_ns]
    refine ⟨⟨fun _ => hres, fun _ => hmx⟩, ?_, ?_⟩
    · intro hmf
      rw [hmx] at hmf
      cases hmf
    · intro n hn
      rw [hres] at hn
      cases hn
  · have hmx0 : ((c || truthyStr p) && truthyStr pid) = false := by
      simpa using hmx
    cases c with
    | false =>
      have hok := Commit_request_ok_shape caps false t p pid nd rc l cm wti hrc
        hmx0 (fun h => nomatch h)
      refine ⟨⟨fun hx => absurd hx hmx, fun hres2 => ?_⟩, fun _ msg n hn => ?_,
        fun n hn _ => ?_⟩
      · rw [hok] at hres2
        cases hres2
      · rw [hok] at hn
        cases hn
      · rw [hok] at hn
        injection hn with hn
        subst hn
        constructor
        · simp [Elem.hasChildTag, Elem.children, confirmedChildren,
            List.any_append,
            scpChildren_no_tag nd rc "confirmed" (by decide) (by decide),
            rbChildren_no_tag l cm "confirmed" (by decide) (by decide),
            wtiChildren_no_tag wti "confirmed" (by decide),
            pidChildren_no_tag pid "confirmed" (by decide)]
        · simp [Elem.hasChildTag, Elem.children, confirmedChildren,
            List.any_append,
            scpChildren_no_tag nd rc "persist" (by decide) (by decide),
            rbChildren_no_tag l cm "persist" (by decide) (by decide),
            wtiChildren_no_tag wti "persist" (by decide),
            pidChildren_no_tag pid "persist" (by decide)]
    | true =>
      have hpid : truthyStr pid = false := by
        simpa using hmx0
      by_cases hcm : ":confirmed-commit" ∈ caps
      · have hok := Commit_request_ok_shape caps true t p pid nd rc l cm wti hrc
          hmx0 (fun _ => hcm)
        refine ⟨⟨fun hx => absurd hx hmx, fun hres2 => ?_⟩, fun _ msg n hn => ?_,
          fun n hn hpt => ?_⟩
        · rw [hok] at hres2
          cases hres2
        · rw [hok] at hn
          cases hn
        · rw [hok] at hn
          injection hn with hn
          subst hn
          rw [Elem.hasChildTag] at hpt
          simp only [Elem.children, List.any_append,
            confirmedChildren_no_tag true t p "persist-id" (by decide) (by decide)
              (by decide),
            any_tag_pidChildren pid,
            scpChildren_no_tag nd rc "persist-id" (by decide) (by decide),
            rbChildren_no_tag l cm "persist-id" (by decide) (by decide),
            wtiChildren_no_tag wti "persist-id" (by decide),
            hpid, Bool.or_false, Bool.false_or] at hpt
          exact absurd hpt Bool.false_ne_true
      · have herr : Commit_request caps true t p pid nd rc l cm wti =
            .error (.missingCapability ":confirmed-commit", new_ele "commit") := by
          simp [Commit_request, hmx0, hpid, RPC_assert, hcm, new_ele, new_ele_ns]
        refine ⟨⟨fun hx => absurd hx hmx, fun hres2 => ?_⟩, fun _ msg n hn => ?_,
          fun n hn _ => ?_⟩
        · rw [herr] at hres2
          exact absurd hres2 (by simp)
        · rw [herr] at hn
          exact absurd hn (by simp)
        · rw [herr] at hn
          exact absurd hn (by simp)

/-- Witness for C3: `confirmed=True` together with `persist_id="id"`
raises the mutual-exclusion error before any child is appended. -/
theorem C3_witness :
    Commit_request [] true none none (some "id") false none none none false =
      .error (.operationError commitMutexMsg, new_ele "commit") :=
  ((C3_commit_mutual_exclusion [] true none none (some "id") false none none
      none false (Or.inl rfl)).1).mp (by decide)

/-- Claim C10 is false as stated: with `confirmed` false a supplied
`persist` is not fully ignored — together with a supplied `persist_id` it
triggers the mutual-exclusion `OperationError`. -/
theorem C10_counterexample :
    Commit_request [] false none (some "token") (some "id") false none none
        none false =
      .error (.operationError commitMutexMsg, new_ele "commit") := rfl

/-- Claim C10, amended: for every Commit call with `confirmed` false, as
long as `persist` and `persist_id` are not both present (and `reconcile`
is valid), the build succeeds and the request contains no `confirmed`,
`confirm-timeout` or `persist` elements even when `timeout` or `persist`
arguments are supplied; those two parameters only affect the request when
`confirmed` is true. -/
theorem C10_confirmed_false_amended (caps : List String)
    (t p pid : Option String) (nd : Bool) (rc l cm : Option String) (wti : Bool)
    (hrc : rc = none ∨ rc = some "keep-non-service-config" ∨
      rc = some "discard-non-service-config")
    (hp : (truthyStr p && truthyStr pid) = false) :
    ∃ n : Elem, Commit_request caps false t p pid nd rc l cm wti = .ok n ∧
      n.hasChildTag "confirmed" = false ∧
      n.hasChildTag "confirm-timeout" = false ∧
      n.hasChildTag "persist" = false := by
  have hok := Commit_request_ok_shape caps false t p pid nd rc l cm wti hrc
    (by simpa using hp) (fun h => nomatch h)
  refine ⟨_, hok, ?_, ?_, ?_⟩
  · simp [Elem.hasChildTag, Elem.children, confirmedChildren, List.any_append,
      scpChildren_no_tag nd rc "confirmed" (by decide) (by decide),
      rbChildren_no_tag l cm "confirmed" (by decide) (by decide),
      wtiChildren_no_tag wti "confirmed" (by decide),
      pidChildren_no_tag pid "confirmed" (by decide)]
  · simp [Elem.hasChildTag, Elem.children, confirmedChildren, List.any_append,
      scpChildren_no_tag nd rc "confirm-timeout" (by decide) (by decide),
      rbChildren_no_tag l cm "confirm-timeout" (by decide) (by decide),
      wtiChildren_no_tag wti "confirm-timeout" (by decide),
      pidChildren_no_tag pid "confirm-timeout" (by decide)]
  · simp [Elem.hasChildTag, Elem.children, confirmedChildren, List.any_append,
      scpChildren_no_tag nd rc "persist" (by decide) (by decide),
      rbChildren_no_tag l cm "persist" (by decide) (by decide),
      wtiChildren_no_tag wti "persist" (by decide),
      pidChildren_no_tag pid "persist" (by decide)]

/-- Witness for the amended C10: `confirmed=False` with both `timeout`
and `persist` supplied succeeds and produces none of the three
confirmed-commit elements. -/
theorem C10_witness :
    ∃ n : Elem, Commit_request [] false (some "30") (some "tok") none false
        none none none false = .ok n ∧
      n.hasChildTag "confirmed" = false ∧
      n.hasChildTag "confirm-timeout" = false ∧
      n.hasChildTag "persist" = false :=
  C10_confirmed_false_amended [] (some "30") (some "tok") none false none
    none none false (Or.inl rfl) (by decide)

/-- Claim C9: with a non-None `test_option` EditConfig raises the
missing-capability error exactly when the session lacks `:validate`; with
`error_option="rollback-on-error"` it raises exactly when the session
lacks `:rollback-on-error`; the other enumerated `error_option` values
need no capability at all. -/
theorem C9_edit_config_capabilities (caps : List String) :
    (∀ t0 : String, buildErrCap
        (EditConfig_request caps (.tree (.mk "" "config" none [])) "xml"
          "candidate" none (some t0) none false none none none false false) =
      (if ":validate" ∈ caps then none else some ":validate"))
    ∧ (buildErrCap
        (EditConfig_request caps (.tree (.mk "" "config" none [])) "xml"
          "candidate" none none (some "rollback-on-error") false none none none
          false false) =
      (if ":rollback-on-error" ∈ caps then none else some ":rollback-on-error"))
    ∧ (∀ e0 : String, (e0 = "stop-on-error" ∨ e0 = "continue-on-error") →
      ∃ n : Elem,
        EditConfig_request caps (.tree (.mk "" "config" none [])) "xml"
          "candidate" none none (some e0) false none none none false false =
        .ok n) := by
  have hc : containsSub "candidate" "://" = false := rfl
  refine ⟨?_, ?_, ?_⟩
  · intro t0
    by_cases hv : ":validate" ∈ caps <;>
      simp [EditConfig_request, datastore_or_url, hc, RPC_assert, hv,
        add_service_commit_params, add_rollback_meta_data,
        add_with_transaction_id, add_with_inactive, validated_element,
        retag_base_config, buildErrCap, new_ele, new_ele_ns, Elem.appendChild,
        Elem.ns, Elem.tag]
  · by_cases hr : ":rollback-on-error" ∈ caps <;>
      simp [EditConfig_request, datastore_or_url, hc, RPC_assert, hr,
        add_service_commit_params, add_rollback_meta_data,
        add_with_transaction_id, add_with_inactive, validated_element,
        retag_base_config, buildErrCap, new_ele, new_ele_ns, Elem.appendChild,
        Elem.ns, Elem.tag]
  · intro e0 h
    rcases h with h | h <;> subst h <;> exact ⟨_, rfl⟩

/-- Witness for C9 at concrete capability sets. -/
theorem C9_witness :
    buildErrCap (EditConfig_request [] (.tree (.mk "" "config" none [])) "xml"
        "candidate" none (some "test-then-set") none false none none none
        false false) = some ":validate"
    ∧ buildErrCap (EditConfig_request [":validate"]
        (.tree (.mk "" "config" none [])) "xml" "candidate" none
        (some "test-then-set") none false none none none false false) = none
    ∧ ∃ n : Elem,
        EditConfig_request [] (.tree (.mk "" "config" none [])) "xml"
          "candidate" none none (some "stop-on-error") false none none none
          false false = .ok n := by
  refine ⟨?_, ?_, ?_⟩
  · have h := (C9_edit_config_capabilities []).1 "test-then-set"
    simpa using h
  · have h := (C9_edit_config_capabilities [":validate"]).1 "test-then-set"
    simpa using h
  · exact (C9_edit_config_capabilities []).2.2 "stop-on-error" (Or.inl rfl)

theorem C8_witness :
    CopyConfig_request [] (.str "running") "candidate" false none false false =
      .ok (.mk BASE_NS_1_0 "copy-config" none
        [targetFor "candidate",
         .mk BASE_NS_1_0 "source" none [.mk BASE_NS_1_0 "running" none []]]) := by
  exact C8_copy_config_source.1 "running" (by decide)

end Tailf
